import Mathlib

/-!
Verification of the Bybit spot-trading manager (`bybit_manager.py`).

The numeric layer models Python floats as exact rationals (ℚ): the claims
are about the arithmetic the code expresses, and the spec states them over
exact decimal arithmetic.  The Python built-in `round` (banker rounding,
round-half-to-even) is modelled by `python_round`; `math.floor`-based
truncation by `round_to_precision`.  Python strings are modelled as
`List Char`, and `str.split` on a single-character separator by
`splitOnChar`.  The remote gateway (`ApiClient`) is modelled as a record of
response data, and order submissions are collected into a list of
`PlacedOrder` records mirroring exactly the keyword arguments each call
site of `place_order` passes.
-/

namespace Bybit

/-- Round half to even (banker rounding) of a rational to an integer:
the model of the Python built-in `round(x)` on exact values. -/
def round_half_even (q : ℚ) : ℤ :=
  if q - ⌊q⌋ < 1/2 then ⌊q⌋
  else if 1/2 < q - ⌊q⌋ then ⌊q⌋ + 1
  else if ⌊q⌋ % 2 = 0 then ⌊q⌋ else ⌊q⌋ + 1

/-- The Python `round(x, n)` for nonnegative `n`: round `x * 10^n` half to
even, then scale back. -/
def python_round (q : ℚ) (n : ℕ) : ℚ :=
  (round_half_even (q * 10 ^ n) : ℚ) / 10 ^ n

/-- `BybitManager._round_to_precision`: `math.floor(value * factor) / factor`
with `factor = 10 ** precision`. -/
def round_to_precision (value : ℚ) (precision : ℕ) : ℚ :=
  (⌊value * 10 ^ precision⌋ : ℚ) / 10 ^ precision

/-- `BybitManager._calculate_order_qty` with the fetched USDT balance made
explicit: `round(usdt_balance * (percent_of_balance / 100), 0)`. -/
def calculate_order_qty (usdt_balance : ℚ) (percent_of_balance : ℚ) : ℚ :=
  python_round (usdt_balance * (percent_of_balance / 100)) 0

lemma round_half_even_nonneg (q : ℚ) (h : 0 ≤ q) : 0 ≤ round_half_even q := by
  have hf : (0 : ℤ) ≤ ⌊q⌋ := Int.floor_nonneg.mpr h
  unfold round_half_even
  split
  · exact hf
  · split
    · omega
    · split
      · exact hf
      · omega

lemma round_half_even_intCast (k : ℤ) : round_half_even (k : ℚ) = k := by
  unfold round_half_even
  rw [Int.floor_intCast]
  norm_num

lemma python_round_nonneg (q : ℚ) (n : ℕ) (h : 0 ≤ q) : 0 ≤ python_round q n := by
  unfold python_round
  apply div_nonneg
  · exact_mod_cast round_half_even_nonneg _ (by positivity)
  · positivity

lemma python_round_intCast (k : ℤ) (n : ℕ) : python_round (k : ℚ) n = k := by
  unfold python_round
  have h : (k : ℚ) * 10 ^ n = ((k * 10 ^ n : ℤ) : ℚ) := by push_cast; ring
  rw [h, round_half_even_intCast]
  push_cast
  have h10 : ((10 : ℚ) ^ n) ≠ 0 := by positivity
  field_simp

/-- C1: for every balance B ≥ 0 and percentage P ∈ [0,100], the quantity
calculator returns `round(B * P / 100, 0)` and the result is nonnegative. -/
theorem calculate_order_qty_correct (B P : ℚ) (hB : 0 ≤ B) (hP0 : 0 ≤ P)
    (hP1 : P ≤ 100) :
    calculate_order_qty B P = python_round (B * P / 100) 0 ∧
    0 ≤ calculate_order_qty B P := by
  constructor
  · unfold calculate_order_qty
    rw [mul_div_assoc]
  · unfold calculate_order_qty
    apply python_round_nonneg
    have : 0 ≤ P / 100 := by positivity
    positivity

/-- Witness for C1 at B = 3, P = 50. -/
theorem calculate_order_qty_correct_witness :
    (0 : ℚ) ≤ 3 ∧ (0 : ℚ) ≤ 50 ∧ (50 : ℚ) ≤ 100 ∧
    (calculate_order_qty 3 50 = python_round (3 * 50 / 100) 0 ∧
      0 ≤ calculate_order_qty 3 50) :=
  ⟨by norm_num, by norm_num, by norm_num,
    calculate_order_qty_correct 3 50 (by norm_num) (by norm_num) (by norm_num)⟩

/-- C2: for every v ≥ 0 and precision p, `_round_to_precision` truncates
toward zero: the result never exceeds v and has at most p decimal digits;
in particular 1.23456 at precision 2 gives 1.23 and 1.239 gives 1.23. -/
theorem round_to_precision_floor (v : ℚ) (p : ℕ) (hv : 0 ≤ v) :
    round_to_precision v p ≤ v ∧
    (∃ k : ℤ, round_to_precision v p = (k : ℚ) / 10 ^ p) ∧
    round_to_precision (1.23456 : ℚ) 2 = 1.23 ∧
    round_to_precision (1.239 : ℚ) 2 = 1.23 := by
  refine ⟨?_, ⟨⌊v * 10 ^ p⌋, rfl⟩, ?_, ?_⟩
  · unfold round_to_precision
    rw [div_le_iff₀ (by positivity : (0:ℚ) < 10 ^ p)]
    exact Int.floor_le _
  · unfold round_to_precision
    rw [show (1.23456 : ℚ) * 10 ^ 2 = 123.456 by norm_num,
      show ⌊(123.456 : ℚ)⌋ = 123 from Int.floor_eq_iff.mpr (by norm_num)]
    norm_num
  · unfold round_to_precision
    rw [show (1.239 : ℚ) * 10 ^ 2 = 123.9 by norm_num,
      show ⌊(123.9 : ℚ)⌋ = 123 from Int.floor_eq_iff.mpr (by norm_num)]
    norm_num

/-- Witness for C2 at v = 1.239, p = 2. -/
theorem round_to_precision_floor_witness :
    (0 : ℚ) ≤ 1.239 ∧
    (round_to_precision (1.239 : ℚ) 2 ≤ 1.239 ∧
      (∃ k : ℤ, round_to_precision (1.239 : ℚ) 2 = (k : ℚ) / 10 ^ 2) ∧
      round_to_precision (1.23456 : ℚ) 2 = 1.23 ∧
      round_to_precision (1.239 : ℚ) 2 = 1.23) :=
  ⟨by norm_num, round_to_precision_floor 1.239 2 (by norm_num)⟩

/-- C10: there is a balance B ≥ 0 and percentage P ∈ [0,100] for which the
quote order quantity `round(B * P / 100, 0)` strictly exceeds the exact
amount B * P / 100, and with P = 100 it exceeds the available balance B
(the zero-decimals rounding is half-to-even, not truncation). -/
theorem calculate_order_qty_can_exceed_balance :
    ∃ B P : ℚ, 0 ≤ B ∧ 0 ≤ P ∧ P ≤ 100 ∧
      B * P / 100 < calculate_order_qty B P ∧
      P = 100 ∧ B < calculate_order_qty B P := by
  have hq : calculate_order_qty (3/2) 100 = 2 := by
    unfold calculate_order_qty python_round round_half_even
    rw [show (3/2 * (100/100) * 10 ^ 0 : ℚ) = 3/2 by norm_num,
      show ⌊(3/2 : ℚ)⌋ = 1 from Int.floor_eq_iff.mpr (by norm_num)]
    norm_num
  exact ⟨3/2, 100, by norm_num, by norm_num, le_refl _, by rw [hq]; norm_num,
    rfl, by rw [hq]; norm_num⟩

/-- The Python `str.split(sep)` method for a single-character separator, on strings
modelled as `List Char`: `"".split('.') = ['']`, `"a.b".split('.') = ['a','b']`,
`"a.".split('.') = ['a','']`. -/
def splitOnChar (sep : Char) : List Char → List (List Char)
  | [] => [[]]
  | c :: rest =>
    match splitOnChar sep rest with
    | [] => [[]]
    | h :: t => if c = sep then [] :: h :: t else (c :: h) :: t

/-- `BybitManager._count_decimal_places`: if `'.' in value` then
`len(value.split('.')[1])` else `0`. -/
def count_decimal_places (value : List Char) : ℕ :=
  if '.' ∈ value then ((splitOnChar '.' value).getD 1 []).length else 0

lemma splitOnChar_cons (sep c : Char) (rest : List Char) :
    splitOnChar sep (c :: rest) =
      match splitOnChar sep rest with
      | [] => [[]]
      | h :: t => if c = sep then [] :: h :: t else (c :: h) :: t := rfl

lemma splitOnChar_ne_nil (sep : Char) (l : List Char) : splitOnChar sep l ≠ [] := by
  cases l with
  | nil => simp [splitOnChar]
  | cons c rest =>
    unfold splitOnChar
    cases h : splitOnChar sep rest with
    | nil => simp
    | cons a b => by_cases hc : c = sep <;> simp [hc]

lemma splitOnChar_no_sep (sep : Char) (l : List Char) (h : sep ∉ l) :
    splitOnChar sep l = [l] := by
  induction l with
  | nil => rfl
  | cons c rest ih =>
    have hc : c ≠ sep := fun hh => h (hh ▸ List.mem_cons_self c rest)
    have hrest : sep ∉ rest := fun hh => h (List.mem_cons_of_mem c hh)
    unfold splitOnChar
    rw [ih hrest]
    simp [hc]

lemma splitOnChar_append_sep (sep : Char) (pre post : List Char)
    (hpre : sep ∉ pre) :
    splitOnChar sep (pre ++ sep :: post) = pre :: splitOnChar sep post := by
  induction pre with
  | nil =>
    rw [List.nil_append, splitOnChar_cons]
    cases h : splitOnChar sep post with
    | nil => exact absurd h (splitOnChar_ne_nil sep post)
    | cons a b => simp
  | cons c rest ih =>
    have hc : c ≠ sep := fun hh => hpre (hh ▸ List.mem_cons_self c rest)
    have hrest : sep ∉ rest := fun hh => hpre (List.mem_cons_of_mem c hh)
    rw [List.cons_append, splitOnChar_cons, ih hrest]
    simp [hc]

/-! Enumerations from `types_1.py` (only those the pipeline uses). -/

inductive Category where
  | SPOT | LINEAR | INVERSE | OPTION
deriving DecidableEq, Repr

inductive OrderType where
  | MARKET | LIMIT
deriving DecidableEq, Repr

inductive Side where
  | BUY | SELL
deriving DecidableEq, Repr

inductive TimeInForce where
  | GTC | IOC | FOK | POST_ONLY
deriving DecidableEq, Repr

inductive OrderFilter where
  | ORDER | TP_SL_ORDER | STOP_ORDER
deriving DecidableEq, Repr

/-- Error taxonomy of the spec (§7) for the failure points of the
pipeline: `OrderNotFilled` models the exception raised when
`_get_avg_price` finds no average price in the response, and
`MetadataUnavailable` the exception raised when
`get_instruments_info` returns an empty result list. -/
inductive ManagerError where
  | OrderNotFilled
  | MetadataUnavailable
deriving DecidableEq, Repr

/-- The instrument-metadata record consumed by the precision resolvers:
`lotSizeFilter.basePrecision` and `priceFilter.tickSize` step-size strings. -/
structure Instrument where
  basePrecision : List Char
  tickSize : List Char
deriving DecidableEq

/-- The gateway (`ApiClient`) modelled as the response data its queries
return: balances by coin, the order id returned by the market-order
submission, the `avgPrice` field (or its absence) of the queried order by
id, and the instrument metadata by symbol (`none` = empty result list). -/
structure Gateway where
  balance : String → ℚ
  marketOrderId : String
  avgPriceOf : String → Option ℚ
  instruments : String → Option Instrument

/-- One call to `ApiClient.place_order`, with exactly the keyword
arguments its call sites pass (absent optional fields are `none`, and
defaulted fields carry the default from `api_client.py`). -/
structure PlacedOrder where
  category : Category
  symbol : String
  side : Side
  orderType : OrderType
  qty : ℚ
  price : Option ℚ
  timeInForce : TimeInForce
  triggerPrice : Option ℚ
  orderFilter : OrderFilter
  marketUnit : Option String
deriving DecidableEq

/-- `BybitManager._get_qty_precision`: look up the instrument and count the
decimal places of `lotSizeFilter.basePrecision`; an empty result list makes
the subscript fail (`MetadataUnavailable`). -/
def get_qty_precision (gw : Gateway) (symbol : String) : Except ManagerError ℕ :=
  match gw.instruments symbol with
  | none => .error .MetadataUnavailable
  | some info => .ok (count_decimal_places info.basePrecision)

/-- `BybitManager._get_price_precision`: look up the instrument and count
the decimal places of `priceFilter.tickSize`; an empty result list makes
the subscript fail (`MetadataUnavailable`). -/
def get_price_precision (gw : Gateway) (symbol : String) : Except ManagerError ℕ :=
  match gw.instruments symbol with
  | none => .error .MetadataUnavailable
  | some info => .ok (count_decimal_places info.tickSize)

/-- `BybitManager._get_avg_price`: extract `avgPrice` from the queried
order; its absence makes the extraction fail (`OrderNotFilled`). -/
def get_avg_price (gw : Gateway) (order_id : String) : Except ManagerError ℚ :=
  match gw.avgPriceOf order_id with
  | none => .error .OrderNotFilled
  | some p => .ok p

/-- `BybitManager._get_formatted_balance`: fetch the coin balance and
floor-round it to the quantity precision of the symbol. -/
def get_formatted_balance (gw : Gateway) (coin symbol : String) :
    Except ManagerError ℚ :=
  (get_qty_precision gw symbol).map (fun prec =>
    round_to_precision (gw.balance coin) prec)

/-- The pure price computation of `BybitManager._calculate_target_price`
once the price precision is resolved:
`round(avg_price * multiplier, price_precision)` with
`multiplier = 1 ± percentage/100`. -/
def target_price (avg_price percentage : ℚ) (is_take_profit : Bool)
    (price_precision : ℕ) : ℚ :=
  python_round
    (avg_price * (if is_take_profit then 1 + percentage / 100
                  else 1 - percentage / 100))
    price_precision

/-- `BybitManager._calculate_target_price`: resolve the price precision for
the symbol, then compute the rounded target price. -/
def calculate_target_price (gw : Gateway) (symbol : String)
    (avg_price percentage : ℚ) (is_take_profit : Bool) :
    Except ManagerError ℚ :=
  (get_price_precision gw symbol).map (target_price avg_price percentage is_take_profit)

/-- The `place_order` call made by `BybitManager._execute_market_order`:
market order, quantity from `_calculate_order_qty`, `market_unit="quoteCoin"`,
defaults `time_in_force=IOC`, `order_filter=Order` from `api_client.py`. -/
def market_order_request (gw : Gateway) (symbol : String) (side : Side)
    (percent_of_balance : ℚ) : PlacedOrder :=
  { category := .SPOT, symbol := symbol, side := side, orderType := .MARKET,
    qty := calculate_order_qty (gw.balance "USDT") percent_of_balance,
    price := none, timeInForce := .IOC, triggerPrice := none,
    orderFilter := .ORDER, marketUnit := some "quoteCoin" }

/-- The `place_order` call made by `BybitManager._place_limit_order`:
limit order with a price, `time_in_force=GTC`, default `order_filter=Order`. -/
def limit_order_request (symbol : String) (qty price : ℚ) (side : Side) :
    PlacedOrder :=
  { category := .SPOT, symbol := symbol, side := side, orderType := .LIMIT,
    qty := qty, price := some price, timeInForce := .GTC, triggerPrice := none,
    orderFilter := .ORDER, marketUnit := none }

/-- The `place_order` call made by `BybitManager._place_stop_loss`:
market sell with a trigger price and `order_filter=StopOrder`, default
`time_in_force=IOC`. -/
def stop_loss_request (symbol : String) (qty trigger_price : ℚ) : PlacedOrder :=
  { category := .SPOT, symbol := symbol, side := .SELL, orderType := .MARKET,
    qty := qty, price := none, timeInForce := .IOC,
    triggerPrice := some trigger_price, orderFilter := .STOP_ORDER,
    marketUnit := none }

/-- `BybitManager._set_take_profit`: compute the take-profit price and
build the limit sell order. -/
def set_take_profit (gw : Gateway) (avg_price qty : ℚ) (symbol : String)
    (tp_percentage : ℚ) : Except ManagerError PlacedOrder :=
  (calculate_target_price gw symbol avg_price tp_percentage true).map
    (fun tp_price => limit_order_request symbol qty tp_price .SELL)

/-- `BybitManager._set_stop_loss`: compute the stop-loss price and build
the conditional market sell order. -/
def set_stop_loss (gw : Gateway) (avg_price qty : ℚ) (symbol : String)
    (sl_percentage : ℚ) : Except ManagerError PlacedOrder :=
  (calculate_target_price gw symbol avg_price sl_percentage false).map
    (fun sl_price => stop_loss_request symbol qty sl_price)

/-- Python truthiness of an optional float parameter defaulting to `None`:
`if x:` is taken exactly when the argument was supplied and is nonzero. -/
def truthy : Option ℚ → Bool
  | none => false
  | some p => p ≠ 0

/-- `BybitManager.place_market_order_spot_to_usdt`: submit the market
order, read the average fill price, derive the base quantity from the
updated balance, then place the stop-loss leg (`if sl_percentage:`) and the
take-profit leg (`if tp_percentage:`).  Returns the orders submitted to the
gateway, in submission order, and the error that aborted the pipeline, if
any (a raised exception leaves already-submitted orders in place). -/
def place_market_order_spot_to_usdt (gw : Gateway) (coin : String)
    (side : Side) (percent_of_balance : ℚ)
    (tp_percentage sl_percentage : Option ℚ) :
    List PlacedOrder × Option ManagerError :=
  let symbol := coin ++ "USDT"
  let marketOrder := market_order_request gw symbol side percent_of_balance
  match get_avg_price gw gw.marketOrderId with
  | .error e => ([marketOrder], some e)
  | .ok avg_price =>
    match get_formatted_balance gw coin symbol with
    | .error e => ([marketOrder], some e)
    | .ok qty =>
      match (if truthy sl_percentage then
              (set_stop_loss gw avg_price qty symbol
                (sl_percentage.getD 0)).map (fun o => [o])
             else .ok []) with
      | .error e => ([marketOrder], some e)
      | .ok slOrders =>
        match (if truthy tp_percentage then
                (set_take_profit gw avg_price qty symbol
                  (tp_percentage.getD 0)).map (fun o => [o])
               else .ok []) with
        | .error e => (marketOrder :: slOrders, some e)
        | .ok tpOrders => (marketOrder :: (slOrders ++ tpOrders), none)

/-- C5: the precision resolver counts the characters after the decimal
point; a string with no decimal point yields zero; in particular
`"0.0001"` gives 4, `"1"` gives 0, and `"0.1"` gives 1. -/
theorem count_decimal_places_correct :
    (∀ pre post : List Char, '.' ∉ pre → '.' ∉ post →
      count_decimal_places (pre ++ '.' :: post) = post.length) ∧
    (∀ s : List Char, '.' ∉ s → count_decimal_places s = 0) ∧
    count_decimal_places "0.0001".data = 4 ∧
    count_decimal_places "1".data = 0 ∧
    count_decimal_places "0.1".data = 1 := by
  refine ⟨?_, ?_, by rfl, by rfl, by rfl⟩
  · intro pre post hpre hpost
    unfold count_decimal_places
    rw [splitOnChar_append_sep '.' pre post hpre, splitOnChar_no_sep '.' post hpost]
    simp
  · intro s hs
    unfold count_decimal_places
    simp [hs]

/-- Witness for C5 at pre = "0", post = "0001" and s = "1". -/
theorem count_decimal_places_correct_witness :
    count_decimal_places ("0".data ++ '.' :: "0001".data) = "0001".data.length ∧
    count_decimal_places "1".data = 0 :=
  ⟨count_decimal_places_correct.1 "0".data "0001".data (by decide) (by decide),
    count_decimal_places_correct.2.1 "1".data (by decide)⟩

/-- Characterization of the successful pipeline: with an average price
present and instrument metadata available, the submitted orders are the
market order followed by the stop-loss leg (when `sl` is truthy) and the
take-profit leg (when `tp` is truthy), and no error is raised. -/
lemma pipeline_ok (gw : Gateway) (coin : String) (side : Side) (percent : ℚ)
    (tp sl : Option ℚ) (ap : ℚ) (info : Instrument)
    (h_avg : gw.avgPriceOf gw.marketOrderId = some ap)
    (h_inst : gw.instruments (coin ++ "USDT") = some info) :
    place_market_order_spot_to_usdt gw coin side percent tp sl =
      (market_order_request gw (coin ++ "USDT") side percent ::
        ((if truthy sl then
            [stop_loss_request (coin ++ "USDT")
              (round_to_precision (gw.balance coin)
                (count_decimal_places info.basePrecision))
              (target_price ap (sl.getD 0) false
                (count_decimal_places info.tickSize))]
          else []) ++
         (if truthy tp then
            [limit_order_request (coin ++ "USDT")
              (round_to_precision (gw.balance coin)
                (count_decimal_places info.basePrecision))
              (target_price ap (tp.getD 0) true
                (count_decimal_places info.tickSize)) Side.SELL]
          else [])), none) := by
  unfold place_market_order_spot_to_usdt get_avg_price get_formatted_balance
    get_qty_precision set_stop_loss set_take_profit calculate_target_price
    get_price_precision
  dsimp only
  rw [h_avg, h_inst]
  cases truthy sl <;> cases truthy tp <;> simp [Except.map]

/-- Characterization of the aborted pipeline: when the average-price
extraction fails, only the market order has been submitted and the error
is propagated. -/
lemma pipeline_no_avg (gw : Gateway) (coin : String) (side : Side)
    (percent : ℚ) (tp sl : Option ℚ)
    (h : gw.avgPriceOf gw.marketOrderId = none) :
    place_market_order_spot_to_usdt gw coin side percent tp sl =
      ([market_order_request gw (coin ++ "USDT") side percent],
        some ManagerError.OrderNotFilled) := by
  unfold place_market_order_spot_to_usdt get_avg_price
  dsimp only
  rw [h]

/-- Characterization of the pipeline when instrument metadata is missing:
the quantity-precision lookup fails right after the average price is read,
so only the market order has been submitted. -/
lemma pipeline_no_meta (gw : Gateway) (coin : String) (side : Side)
    (percent : ℚ) (tp sl : Option ℚ) (ap : ℚ)
    (h_avg : gw.avgPriceOf gw.marketOrderId = some ap)
    (h_inst : gw.instruments (coin ++ "USDT") = none) :
    place_market_order_spot_to_usdt gw coin side percent tp sl =
      ([market_order_request gw (coin ++ "USDT") side percent],
        some ManagerError.MetadataUnavailable) := by
  unfold place_market_order_spot_to_usdt get_avg_price get_formatted_balance
    get_qty_precision
  dsimp only
  rw [h_avg, h_inst]
  rfl

/-- Instrument metadata used by concrete scenarios: base precision step
`"0.0001"` (4 decimals), tick size `"0.01"` (2 decimals). -/
def instBTC : Instrument := ⟨"0.0001".data, "0.01".data⟩

/-- Gateway whose queried order has no average price. -/
def gwNoFill : Gateway :=
  { balance := fun _ => 1000, marketOrderId := "oid-1",
    avgPriceOf := fun _ => none, instruments := fun _ => some instBTC }

/-- Gateway for the filled-order scenario: 1000 USDT, post-trade base
balance 0.0023, average fill price 100. -/
def gwFilled : Gateway :=
  { balance := fun c => if c = "USDT" then 1000 else 23/10000,
    marketOrderId := "oid-1",
    avgPriceOf := fun _ => some 100, instruments := fun _ => some instBTC }

/-- Gateway whose instrument lookup returns an empty result list. -/
def gwNoMeta : Gateway :=
  { balance := fun _ => 1000, marketOrderId := "oid-1",
    avgPriceOf := fun _ => some 100, instruments := fun _ => none }

/-- C3: the dependent-order planner computes the take-profit price as
`round(avg * (1 + pct/100), price_precision)` and the stop-loss price as
`round(avg * (1 - pct/100), price_precision)`; with avg = 100 and
pct = 10 these are 110 and 90 at every price precision. -/
theorem target_price_correct (avg pct : ℚ) (pprec : ℕ) :
    target_price avg pct true pprec = python_round (avg * (1 + pct / 100)) pprec ∧
    target_price avg pct false pprec = python_round (avg * (1 - pct / 100)) pprec ∧
    target_price 100 10 true pprec = 110 ∧
    target_price 100 10 false pprec = 90 := by
  refine ⟨rfl, rfl, ?_, ?_⟩
  · unfold target_price
    rw [show ((100 : ℚ) * (if true then 1 + 10/100 else 1 - 10/100)) =
        ((110 : ℤ) : ℚ) by norm_num, python_round_intCast]
    norm_num
  · unfold target_price
    rw [show ((100 : ℚ) * (if false then 1 + 10/100 else 1 - 10/100)) =
        ((90 : ℤ) : ℚ) by norm_num, python_round_intCast]
    norm_num

/-- C4: when the queried order carries no average price, the extraction
fails with `OrderNotFilled` and the pipeline submits no take-profit and no
stop-loss order (only the already-submitted market order). -/
theorem no_avg_price_aborts (gw : Gateway) (coin : String) (side : Side)
    (percent : ℚ) (tp sl : Option ℚ)
    (h : gw.avgPriceOf gw.marketOrderId = none) :
    get_avg_price gw gw.marketOrderId = .error .OrderNotFilled ∧
    place_market_order_spot_to_usdt gw coin side percent tp sl =
      ([market_order_request gw (coin ++ "USDT") side percent],
        some ManagerError.OrderNotFilled) := by
  constructor
  · unfold get_avg_price
    rw [h]
  · exact pipeline_no_avg gw coin side percent tp sl h

/-- Witness for C4: the no-fill gateway with both TP and SL requested. -/
theorem no_avg_price_aborts_witness :
    get_avg_price gwNoFill gwNoFill.marketOrderId = .error .OrderNotFilled ∧
    place_market_order_spot_to_usdt gwNoFill "BTC" Side.BUY 10
        (some 10) (some 10) =
      ([market_order_request gwNoFill "BTCUSDT" Side.BUY 10],
        some ManagerError.OrderNotFilled) :=
  no_avg_price_aborts gwNoFill "BTC" Side.BUY 10 (some 10) (some 10) rfl

/-- C9: when the instrument lookup returns an empty result list, both
precision resolvers fail with `MetadataUnavailable`, and the pipeline
aborts every precision-dependent step (no dependent order is placed). -/
theorem metadata_unavailable_aborts (gw : Gateway) (coin : String)
    (side : Side) (percent : ℚ) (tp sl : Option ℚ) (ap : ℚ)
    (h_inst : gw.instruments (coin ++ "USDT") = none)
    (h_avg : gw.avgPriceOf gw.marketOrderId = some ap) :
    get_qty_precision gw (coin ++ "USDT") = .error .MetadataUnavailable ∧
    get_price_precision gw (coin ++ "USDT") = .error .MetadataUnavailable ∧
    place_market_order_spot_to_usdt gw coin side percent tp sl =
      ([market_order_request gw (coin ++ "USDT") side percent],
        some ManagerError.MetadataUnavailable) := by
  refine ⟨?_, ?_, pipeline_no_meta gw coin side percent tp sl ap h_avg h_inst⟩
  · unfold get_qty_precision
    rw [h_inst]
  · unfold get_price_precision
    rw [h_inst]

/-- Witness for C9: the empty-metadata gateway with both TP and SL
requested. -/
theorem metadata_unavailable_aborts_witness :
    get_qty_precision gwNoMeta "BTCUSDT" = .error .MetadataUnavailable ∧
    get_price_precision gwNoMeta "BTCUSDT" = .error .MetadataUnavailable ∧
    place_market_order_spot_to_usdt gwNoMeta "BTC" Side.BUY 10
        (some 10) (some 10) =
      ([market_order_request gwNoMeta "BTCUSDT" Side.BUY 10],
        some ManagerError.MetadataUnavailable) :=
  metadata_unavailable_aborts gwNoMeta "BTC" Side.BUY 10 (some 10) (some 10)
    100 rfl rfl

/-- C6: with the order filled and metadata available, every dependent
(TP/SL) order submitted after the market order carries the quantity
obtained by floor-rounding the freshly fetched base-coin balance to the
resolved quantity precision of the symbol — not a quantity from the order
response; floor-rounding a base balance of 0.0023 at quantity precision 4
gives 0.0023. -/
theorem dependent_qty_from_balance (gw : Gateway) (coin : String)
    (side : Side) (percent : ℚ) (tp sl : Option ℚ) (ap : ℚ)
    (info : Instrument)
    (h_avg : gw.avgPriceOf gw.marketOrderId = some ap)
    (h_inst : gw.instruments (coin ++ "USDT") = some info) :
    (∀ o ∈ (place_market_order_spot_to_usdt gw coin side percent tp sl).1.drop 1,
        o.qty = round_to_precision (gw.balance coin)
          (count_decimal_places info.basePrecision)) ∧
    round_to_precision (23/10000 : ℚ) 4 = 23/10000 := by
  constructor
  · rw [pipeline_ok gw coin side percent tp sl ap info h_avg h_inst]
    cases truthy sl <;> cases truthy tp <;>
      simp [stop_loss_request, limit_order_request]
  · unfold round_to_precision
    rw [show (23/10000 : ℚ) * 10 ^ 4 = ((23 : ℤ) : ℚ) by norm_num,
      Int.floor_intCast]
    norm_num

/-- Witness for C6: the filled-order gateway with base balance 0.0023 and
base precision string "0.0001". -/
theorem dependent_qty_from_balance_witness :
    (∀ o ∈ (place_market_order_spot_to_usdt gwFilled "BTC" Side.BUY 10
          (some 10) (some 10)).1.drop 1,
        o.qty = round_to_precision (gwFilled.balance "BTC")
          (count_decimal_places instBTC.basePrecision)) ∧
    round_to_precision (23/10000 : ℚ) 4 = 23/10000 :=
  dependent_qty_from_balance gwFilled "BTC" Side.BUY 10 (some 10) (some 10)
    100 instBTC rfl rfl

/-- C7 counterexample: a call in which a take-profit percentage (and a
stop-loss percentage) is supplied as 0 places neither leg — the code
guards each leg with Python truthiness (`if tp_percentage:`), so a
supplied zero percentage behaves like an absent one; the submitted orders
are exactly the market order, which is not a limit order and not a
stop order. -/
theorem supplied_zero_percentage_places_no_leg :
    place_market_order_spot_to_usdt gwFilled "BTC" Side.BUY 10
        (some 0) (some 0) =
      ([market_order_request gwFilled "BTCUSDT" Side.BUY 10], none) ∧
    (market_order_request gwFilled "BTCUSDT" Side.BUY 10).orderType ≠
      OrderType.LIMIT ∧
    (market_order_request gwFilled "BTCUSDT" Side.BUY 10).orderFilter ≠
      OrderFilter.STOP_ORDER := by
  have ht : truthy (some (0 : ℚ)) = false := by simp [truthy]
  have h := pipeline_ok gwFilled "BTC" Side.BUY 10 (some 0) (some 0)
    100 instBTC rfl rfl
  rw [ht] at h
  simp only [Bool.false_eq_true, if_false, List.append_nil] at h
  exact ⟨h, by simp [market_order_request], by simp [market_order_request]⟩

/-- C7 amended: with the order filled and metadata available, a
take-profit leg (a limit order) is placed iff the take-profit percentage
is supplied and nonzero, and a stop-loss leg (a stop-order-filtered order)
is placed iff the stop-loss percentage is supplied and nonzero — each
independently of the other. -/
theorem legs_iff_supplied_nonzero (gw : Gateway) (coin : String)
    (side : Side) (percent : ℚ) (tp sl : Option ℚ) (ap : ℚ)
    (info : Instrument)
    (h_avg : gw.avgPriceOf gw.marketOrderId = some ap)
    (h_inst : gw.instruments (coin ++ "USDT") = some info) :
    ((∃ o ∈ (place_market_order_spot_to_usdt gw coin side percent tp sl).1,
        o.orderType = OrderType.LIMIT) ↔ truthy tp = true) ∧
    ((∃ o ∈ (place_market_order_spot_to_usdt gw coin side percent tp sl).1,
        o.orderFilter = OrderFilter.STOP_ORDER) ↔ truthy sl = true) := by
  rw [pipeline_ok gw coin side percent tp sl ap info h_avg h_inst]
  cases truthy sl <;> cases truthy tp <;>
    simp [market_order_request, limit_order_request, stop_loss_request]

/-- Witness for the amended C7: both percentages supplied nonzero. -/
theorem legs_iff_supplied_nonzero_witness :
    ((∃ o ∈ (place_market_order_spot_to_usdt gwFilled "BTC" Side.BUY 10
          (some 10) (some 5)).1,
        o.orderType = OrderType.LIMIT) ↔ truthy (some 10) = true) ∧
    ((∃ o ∈ (place_market_order_spot_to_usdt gwFilled "BTC" Side.BUY 10
          (some 10) (some 5)).1,
        o.orderFilter = OrderFilter.STOP_ORDER) ↔ truthy (some 5) = true) :=
  legs_iff_supplied_nonzero gwFilled "BTC" Side.BUY 10 (some 10) (some 5)
    100 instBTC rfl rfl

/-- C8: when both legs are requested, the take-profit leg is a limit sell
at the take-profit price with no trigger, the stop-loss leg is a market
sell carrying a trigger price and the stop-order filter, and both legs
carry the same full base quantity (no splitting between the two). -/
theorem tp_sl_leg_shape (gw : Gateway) (coin : String) (side : Side)
    (percent : ℚ) (tp sl : Option ℚ) (ap : ℚ) (info : Instrument)
    (h_avg : gw.avgPriceOf gw.marketOrderId = some ap)
    (h_inst : gw.instruments (coin ++ "USDT") = some info)
    (htp : truthy tp = true) (hsl : truthy sl = true) :
    ∃ tpLeg ∈ (place_market_order_spot_to_usdt gw coin side percent tp sl).1,
    ∃ slLeg ∈ (place_market_order_spot_to_usdt gw coin side percent tp sl).1,
      tpLeg.orderType = OrderType.LIMIT ∧ tpLeg.side = Side.SELL ∧
      tpLeg.price = some (target_price ap (tp.getD 0) true
        (count_decimal_places info.tickSize)) ∧
      tpLeg.triggerPrice = none ∧ tpLeg.orderFilter = OrderFilter.ORDER ∧
      slLeg.orderType = OrderType.MARKET ∧ slLeg.side = Side.SELL ∧
      slLeg.price = none ∧
      slLeg.triggerPrice = some (target_price ap (sl.getD 0) false
        (count_decimal_places info.tickSize)) ∧
      slLeg.orderFilter = OrderFilter.STOP_ORDER ∧
      tpLeg.qty = slLeg.qty ∧
      tpLeg.qty = round_to_precision (gw.balance coin)
        (count_decimal_places info.basePrecision) := by
  rw [pipeline_ok gw coin side percent tp sl ap info h_avg h_inst, htp, hsl]
  simp [market_order_request, limit_order_request, stop_loss_request]

/-- Witness for C8: the filled-order gateway with TP 10% and SL 5%. -/
theorem tp_sl_leg_shape_witness :
    ∃ tpLeg ∈ (place_market_order_spot_to_usdt gwFilled "BTC" Side.BUY 10
        (some 10) (some 5)).1,
    ∃ slLeg ∈ (place_market_order_spot_to_usdt gwFilled "BTC" Side.BUY 10
        (some 10) (some 5)).1,
      tpLeg.orderType = OrderType.LIMIT ∧ tpLeg.side = Side.SELL ∧
      tpLeg.price = some (target_price 100 ((some (10:ℚ)).getD 0) true
        (count_decimal_places instBTC.tickSize)) ∧
      tpLeg.triggerPrice = none ∧ tpLeg.orderFilter = OrderFilter.ORDER ∧
      slLeg.orderType = OrderType.MARKET ∧ slLeg.side = Side.SELL ∧
      slLeg.price = none ∧
      slLeg.triggerPrice = some (target_price 100 ((some (5:ℚ)).getD 0) false
        (count_decimal_places instBTC.tickSize)) ∧
      slLeg.orderFilter = OrderFilter.STOP_ORDER ∧
      tpLeg.qty = slLeg.qty ∧
      tpLeg.qty = round_to_precision (gwFilled.balance "BTC")
        (count_decimal_places instBTC.basePrecision) :=
  tp_sl_leg_shape gwFilled "BTC" Side.BUY 10 (some 10) (some 5) 100 instBTC
    rfl rfl (by simp [truthy]) (by simp [truthy])

end Bybit
